import Mathlib

/-!
Shallow embedding of the chat-management service in `src/assignment/scr.py`
(a FastAPI application over MongoDB with a Mistral summarization call).

Modelling conventions:
* A MongoDB collection is a list of `ChatRec` in insertion order
  (`insert_one` appends; `find_one` / `delete_one` act on the first match).
* `datetime` values are integers (epoch instants); only ordering matters.
* Each handler body is split into the `try`-block (`*_try`, returning
  `Except PyError _`) and the handler itself, which applies the
  `except Exception` clause: any exception escaping the `try` block —
  including the `HTTPException`s raised inside it, since in Python an
  `HTTPException` is an `Exception` — is converted to an
  `HTTPException(500, prefix + str(e))`.  `str` of a Starlette
  `HTTPException` is `f"{status_code}: {detail}"`.
* Handlers also return the number of document-store operations they
  performed, so that "validation happens before any store access" is a
  statable property.
* The external Mistral API is an oracle `MistralPayload → MistralResp`;
  the summarize handler additionally reports the payload it sent (if any).
-/

namespace ChatApi

/-- Character class used by `bson.objectid.ObjectId.is_valid`: hexadecimal digit. -/
def isHexChar (c : Char) : Bool := c.isDigit || ('a' ≤ c && c ≤ 'f') || ('A' ≤ c && c ≤ 'F')

/-- Embeds `ObjectId.is_valid(s)` for a string `s`: a 24-character hexadecimal token. -/
def objectIdIsValid (s : String) : Bool := s.length == 24 && s.data.all isHexChar

/-- The `Message` pydantic model: `sender`, `text`, `timestamp`. -/
structure Message where
  sender : String
  text : String
  timestamp : Int
deriving DecidableEq

/-- The `Chat` pydantic model (request body of `POST /chats`): `user_id`, `messages`. -/
structure Chat where
  user_id : String
  messages : List Message
deriving DecidableEq

/-- A persisted chat document: the `Chat` fields plus the store-assigned
`_id` and `created_at`. -/
structure ChatRec where
  _id : String
  user_id : String
  messages : List Message
  created_at : Int
deriving DecidableEq

/-- The `chats` collection, in insertion order. -/
abbrev Store := List ChatRec

/-- Embeds `fastapi.HTTPException`: a status code and a detail message. -/
structure HTTPException where
  status_code : Nat
  detail : String
deriving DecidableEq

deriving instance DecidableEq for Except

/-- A Python exception escaping a handler `try` block: either an
`HTTPException` raised by the handler itself, or any other exception. -/
inductive PyError where
  | http (e : HTTPException)
  | other (msg : String)
deriving DecidableEq

/-- Python `str(e)`; for a Starlette `HTTPException` this is
`f"{status_code}: {detail}"`. -/
def PyError.str : PyError → String
  | .http e => toString e.status_code ++ ": " ++ e.detail
  | .other m => m

/-- The `except Exception as e: raise HTTPException(500, pfx + str(e))`
clause wrapped around every handler body. -/
def wrap500 (pfx : String) : Except PyError α → Except HTTPException α
  | .ok a => .ok a
  | .error e => .error ⟨500, pfx ++ e.str⟩

/-- Response of `POST /chats`. -/
structure StoreChatResp where
  message : String
  chat_id : String
deriving DecidableEq

/-- Handler `store_chat` (`POST /chats`): append `chat.dict()` plus a `created_at`
timestamp to the collection; the store-generated identifier and the current
instant are parameters. Returns the new store and the response body. -/
def store_chat (store : Store) (chat : Chat) (newId : String) (now : Int) :
    Store × StoreChatResp :=
  let chat_data : ChatRec :=
    { _id := newId, user_id := chat.user_id, messages := chat.messages, created_at := now }
  (store ++ [chat_data], { message := "Chat stored successfully!", chat_id := newId })

/-- Embeds `find_one({"_id": id})`: first document with the given identifier. -/
def findChat (store : Store) (chat_id : String) : Option ChatRec :=
  store.find? (fun c => c._id == chat_id)

/-- The `try` block of `get_chat` (`GET /chats/{chat_id}`). Second component:
number of store operations performed. -/
def get_chat_try (store : Store) (chat_id : String) : Except PyError ChatRec × Nat :=
  if !objectIdIsValid chat_id then
    (.error (.http ⟨400, "Invalid chat ID"⟩), 0)
  else
    match findChat store chat_id with
    | some chat => (.ok chat, 1)
    | none => (.error (.http ⟨404, "Chat not found"⟩), 1)

/-- The `get_chat` handler: the `try` block under the catch-all `except`. In the
model `_id` is already a string, so the `chat["_id"] = str(chat["_id"])`
step is the identity. -/
def get_chat (store : Store) (chat_id : String) : Except HTTPException ChatRec × Nat :=
  let r := get_chat_try store chat_id
  (wrap500 "Server error: " r.1, r.2)

/-- Embeds `"\n".join([msg["text"] for msg in chat["messages"]])`. -/
def chatText (msgs : List Message) : String :=
  String.intercalate "\n" (msgs.map Message.text)

/-- One entry of the Mistral `messages` payload field. -/
structure MistralMessage where
  role : String
  content : String
deriving DecidableEq

/-- The JSON payload sent to the Mistral chat-completion endpoint. -/
structure MistralPayload where
  model : String
  messages : List MistralMessage
  temperature : ℚ
  max_tokens : Nat
deriving DecidableEq

/-- The payload `summarize_chat` builds for a given conversation text. -/
def mistralPayload (chat_text : String) : MistralPayload :=
  { model := "mistral-large-latest"
    messages :=
      [ ⟨"system", "Summarize conversations concisely."⟩,
        ⟨"user", "Summarize this conversation:\n\n" ++ chat_text⟩ ]
    temperature := 7/10
    max_tokens := 300 }

/-- Answer of the external API: an HTTP status and, when the body has the
expected shape, `json()["choices"][0]["message"]["content"]`. -/
structure MistralResp where
  status_code : Nat
  content : Option String
deriving DecidableEq

/-- Response of `POST /chats/summarize`. -/
structure SummarizeResp where
  conversation_id : String
  summary : String
  summary_length : Nat
deriving DecidableEq

/-- The `try` block of `summarize_chat`. Returns the outcome, the payload sent
to the external API (`none` when the call was never made), and the number
of store operations. A malformed upstream body (missing fields) raises a
lookup error, modelled as `PyError.other`. -/
def summarize_chat_try (store : Store) (conversation_id : String)
    (api : MistralPayload → MistralResp) :
    Except PyError SummarizeResp × Option MistralPayload × Nat :=
  if !objectIdIsValid conversation_id then
    (.error (.http ⟨400, "Invalid conversation ID"⟩), none, 0)
  else
    match findChat store conversation_id with
    | none => (.error (.http ⟨404, "Chat not found"⟩), none, 1)
    | some chat =>
      let payload := mistralPayload (chatText chat.messages)
      let resp := api payload
      if resp.status_code != 200 then
        (.error (.http ⟨500, "Summarization failed: " ++ toString resp.status_code⟩),
         some payload, 1)
      else
        match resp.content with
        | none => (.error (.other "KeyError"), some payload, 1)
        | some summary =>
          (.ok ⟨conversation_id, summary, summary.length⟩, some payload, 1)

/-- The `summarize_chat` handler (`POST /chats/summarize`). -/
def summarize_chat (store : Store) (conversation_id : String)
    (api : MistralPayload → MistralResp) :
    Except HTTPException SummarizeResp × Option MistralPayload × Nat :=
  let r := summarize_chat_try store conversation_id api
  (wrap500 "Summarization error: " r.1, r.2)

/-- Embeds `collection.find({"user_id": user_id})` / `count_documents`: the
documents of one user, in insertion order. -/
def userChats (store : Store) (uid : String) : List ChatRec :=
  store.filter (fun c => c.user_id == uid)

/-- The comparison realised by `.sort("created_at", -1)`: most recent first. -/
def createdDesc (a b : ChatRec) : Prop := b.created_at ≤ a.created_at

instance : DecidableRel createdDesc := fun a b => Int.decLe b.created_at a.created_at

instance : IsTotal ChatRec createdDesc := ⟨fun a b => le_total b.created_at a.created_at⟩

instance : IsTrans ChatRec createdDesc := ⟨fun _ _ _ hab hbc => le_trans hbc hab⟩

/-- Server-side `.sort("created_at", -1)`: the documents ordered by
`created_at` descending (MongoDB applies the sort before `skip`/`limit`
regardless of the order the cursor methods are chained in; the concrete
sorting algorithm is the choice of the store, so any `createdDesc`-sorted
permutation is a faithful model). -/
def sortByCreatedDesc (l : List ChatRec) : List ChatRec :=
  List.insertionSort createdDesc l

/-- Embeds `math.ceil(total_chats / limit)` on the naturals involved
(for `0 < limit` this is exactly the ceiling of the true division). -/
def mathCeilDiv (a b : Nat) : Nat := (a + b - 1) / b

/-- Response of `GET /users/{user_id}/chats`. -/
structure UserChatsResp where
  user_id : String
  chats : List ChatRec
  page : Nat
  limit : Nat
  total_chats : Nat
  total_pages : Nat
deriving DecidableEq

/-- The `try` block of `get_user_chats` (`GET /users/{user_id}/chats`).
`page ≥ 1` and `1 ≤ limit ≤ 100` are enforced by the FastAPI `Query`
validation before the handler runs. -/
def get_user_chats_try (store : Store) (uid : String) (page limit : Nat) :
    Except PyError UserChatsResp × Nat :=
  let total_chats := (userChats store uid).length
  let total_pages := mathCeilDiv total_chats limit
  if page > total_pages && total_pages > 0 then
    (.error (.http ⟨404, "Page " ++ toString page ++ " does not exist. Total pages: "
        ++ toString total_pages⟩), 1)
  else
    let chats := ((sortByCreatedDesc (userChats store uid)).drop ((page - 1) * limit)).take limit
    (.ok ⟨uid, chats, page, limit, total_chats, total_pages⟩, 2)

/-- The `get_user_chats` handler. -/
def get_user_chats (store : Store) (uid : String) (page limit : Nat) :
    Except HTTPException UserChatsResp × Nat :=
  let r := get_user_chats_try store uid page limit
  (wrap500 "Error retrieving chats: " r.1, r.2)

/-- Python truthiness of the optional `user_id` query parameter:
`None` and the empty string are falsy. -/
def truthy : Option String → Bool
  | none => false
  | some s => s != ""

/-- The deletion filter: `{"_id": conversation_id}`, extended with
`"user_id": user_id` only when `user_id` is truthy. -/
def deleteQueryMatches (cid : String) (uid : Option String) (c : ChatRec) : Bool :=
  c._id == cid && (if truthy uid then c.user_id == uid.getD "" else true)

/-- Embeds `collection.delete_one(q)`: remove the first matching document;
returns the new store and `deleted_count`. -/
def delete_one : Store → (ChatRec → Bool) → Store × Nat
  | [], _ => ([], 0)
  | c :: rest, p =>
    if p c then (rest, 1)
    else
      let r := delete_one rest p
      (c :: r.1, r.2)

/-- Response of `DELETE /chats/{conversation_id}`. -/
structure DeleteResp where
  message : String
  deleted_count : Nat
deriving DecidableEq

/-- The `try` block of `delete_chat`. Returns the outcome, the store after the
call, and the number of store operations. -/
def delete_chat_try (store : Store) (cid : String) (uid : Option String) :
    Except PyError DeleteResp × Store × Nat :=
  if !objectIdIsValid cid then
    (.error (.http ⟨400, "Invalid chat ID"⟩), store, 0)
  else
    let r := delete_one store (deleteQueryMatches cid uid)
    if r.2 == 0 then
      (.error (.http ⟨404, "Chat not found" ++
          (if truthy uid then " or not associated with the specified user" else "")⟩),
       r.1, 1)
    else
      (.ok ⟨"Chat deleted successfully!", r.2⟩, r.1, 1)

/-- The `delete_chat` handler (`DELETE /chats/{conversation_id}`). -/
def delete_chat (store : Store) (cid : String) (uid : Option String) :
    Except HTTPException DeleteResp × Store × Nat :=
  let r := delete_chat_try store cid uid
  (wrap500 "Error deleting chat: " r.1, r.2)

/-! Helper lemmas. -/

/-- Characterisation of `mathCeilDiv` by its upper bounds. -/
lemma mathCeilDiv_le_iff {n l k : ℕ} (hl : 0 < l) : mathCeilDiv n l ≤ k ↔ n ≤ l * k := by
  have h : mathCeilDiv n l = n ⌈/⌉ l := rfl
  rw [h]
  exact ceilDiv_le_iff_le_mul hl

/-- On naturals with a positive divisor, `mathCeilDiv` is the ceiling of the
true (rational) division — i.e. it is faithful to `math.ceil(a / b)`. -/
lemma mathCeilDiv_eq_ceil {n l : ℕ} (hl : 0 < l) :
    mathCeilDiv n l = ⌈(n : ℚ) / (l : ℚ)⌉₊ := by
  have hl' : (0 : ℚ) < (l : ℚ) := by exact_mod_cast hl
  have key : ∀ k : ℕ, mathCeilDiv n l ≤ k ↔ ⌈(n : ℚ) / (l : ℚ)⌉₊ ≤ k := by
    intro k
    rw [mathCeilDiv_le_iff hl, Nat.ceil_le, div_le_iff₀ hl']
    rw [mul_comm l k]
    exact_mod_cast Iff.rfl
  exact le_antisymm ((key _).mpr le_rfl) ((key _).mp le_rfl)

/-- Zero chats give zero pages. -/
lemma mathCeilDiv_zero {l : ℕ} (hl : 0 < l) : mathCeilDiv 0 l = 0 := by
  unfold mathCeilDiv
  exact Nat.div_eq_of_lt (by omega)

/-- When no document matches, `delete_one` leaves the store unchanged and
deletes nothing. -/
lemma delete_one_of_no_match {store : Store} {p : ChatRec → Bool}
    (h : ∀ c ∈ store, p c = false) : delete_one store p = (store, 0) := by
  induction store with
  | nil => rfl
  | cons c rest ih =>
    have hc : p c = false := h c (by simp)
    have hr := ih (fun d hd => h d (by simp [hd]))
    simp [delete_one, hc, hr]

/-- `delete_one` deletes at most one document. -/
lemma delete_one_count_le_one (store : Store) (p : ChatRec → Bool) :
    (delete_one store p).2 ≤ 1 := by
  induction store with
  | nil => simp [delete_one]
  | cons c rest ih =>
    by_cases hc : p c = true
    · simp [delete_one, hc]
    · simp only [delete_one, Bool.not_eq_true] at hc ⊢
      simp [hc, ih]

/-- The length of the store decreases by exactly the deleted count. -/
lemma delete_one_length (store : Store) (p : ChatRec → Bool) :
    store.length = (delete_one store p).1.length + (delete_one store p).2 := by
  induction store with
  | nil => rfl
  | cons c rest ih =>
    by_cases hc : p c = true
    · simp [delete_one, hc]
    · simp only [Bool.not_eq_true] at hc
      simp only [delete_one, hc, Bool.false_eq_true, if_false, List.length_cons]
      omega

/-- The sort used by the pagination handler permutes the input. -/
lemma sortByCreatedDesc_perm (l : List ChatRec) : (sortByCreatedDesc l).Perm l :=
  List.perm_insertionSort createdDesc l

/-- The sort used by the pagination handler orders documents by
`created_at`, most recent first. -/
lemma sortByCreatedDesc_sorted (l : List ChatRec) :
    List.Sorted createdDesc (sortByCreatedDesc l) :=
  List.sorted_insertionSort createdDesc l

/-- Shared shape of an unsuccessful `delete_chat` call: valid identifier,
no document matches the deletion filter. -/
lemma delete_chat_miss {store : Store} {cid : String} {uid : Option String}
    (hv : objectIdIsValid cid = true)
    (h : ∀ c ∈ store, deleteQueryMatches cid uid c = false) :
    delete_chat store cid uid =
      (.error ⟨500, "Error deleting chat: 404: Chat not found" ++
        (if truthy uid then " or not associated with the specified user" else "")⟩,
       store, 1) := by
  have hd := delete_one_of_no_match h
  cases htr : truthy uid with
  | false =>
    simp only [delete_chat, delete_chat_try, hv, Bool.not_true, Bool.false_eq_true,
      if_false, hd, htr, wrap500, PyError.str]
    rfl
  | true =>
    simp only [delete_chat, delete_chat_try, hv, Bool.not_true, Bool.false_eq_true,
      if_false, hd, htr, wrap500, PyError.str]
    rfl

/-- Inversion of a successful `get_user_chats` call: the response is exactly
the page window with its pagination metadata. -/
lemma get_user_chats_ok_inv {store : Store} {uid : String} {page limit : Nat}
    {r : UserChatsResp}
    (h : (get_user_chats store uid page limit).1 = .ok r) :
    r = ⟨uid, ((sortByCreatedDesc (userChats store uid)).drop ((page - 1) * limit)).take limit,
         page, limit, (userChats store uid).length,
         mathCeilDiv (userChats store uid).length limit⟩ := by
  simp only [get_user_chats, get_user_chats_try] at h
  split at h
  · simp [wrap500] at h
  · simp only [wrap500] at h
    exact (Except.ok.inj h).symm

/-! Claim theorems. -/

/-- C1: a malformed identifier is detected before any document-store access
(zero store operations) in `get_chat`, `summarize_chat` and `delete_chat`;
but the `HTTPException(400)` raised for it is swallowed by the catch-all
`except Exception` clause of each handler, so the client receives a 500
response wrapping the 400 detail, not the 400 response the claim states. -/
theorem C1_malformed_id_rejected_before_store_access_but_wrapped_500
    (cid : String) (h : objectIdIsValid cid = false) :
    (∀ store : Store, get_chat store cid =
      (.error ⟨500, "Server error: 400: Invalid chat ID"⟩, 0))
    ∧ (∀ (store : Store) (api : MistralPayload → MistralResp),
        summarize_chat store cid api =
          (.error ⟨500, "Summarization error: 400: Invalid conversation ID"⟩, none, 0))
    ∧ (∀ (store : Store) (uid : Option String),
        delete_chat store cid uid =
          (.error ⟨500, "Error deleting chat: 400: Invalid chat ID"⟩, store, 0)) := by
  refine ⟨fun store => ?_, fun store api => ?_, fun store uid => ?_⟩
  · simp only [get_chat, get_chat_try, h, Bool.not_false, if_true, wrap500, PyError.str]
    rfl
  · simp only [summarize_chat, summarize_chat_try, h, Bool.not_false, if_true, wrap500,
      PyError.str]
    rfl
  · simp only [delete_chat, delete_chat_try, h, Bool.not_false, if_true, wrap500, PyError.str]
    rfl

/-- Witness for C1 at the malformed identifier `"zz"`. -/
theorem C1_malformed_id_witness :
    objectIdIsValid "zz" = false
    ∧ get_chat [] "zz" = (.error ⟨500, "Server error: 400: Invalid chat ID"⟩, 0)
    ∧ summarize_chat [] "zz" (fun _ => ⟨200, some "s"⟩) =
        (.error ⟨500, "Summarization error: 400: Invalid conversation ID"⟩, none, 0)
    ∧ delete_chat [] "zz" none =
        (.error ⟨500, "Error deleting chat: 400: Invalid chat ID"⟩, [], 0) :=
  ⟨by decide,
   (C1_malformed_id_rejected_before_store_access_but_wrapped_500 "zz" (by decide)).1 [],
   (C1_malformed_id_rejected_before_store_access_but_wrapped_500 "zz" (by decide)).2.1 [] _,
   (C1_malformed_id_rejected_before_store_access_but_wrapped_500 "zz" (by decide)).2.2 [] none⟩

/-- C2: a well-formed identifier with no matching record makes `get_chat`
and `summarize_chat` raise `HTTPException(404, "Chat not found")`, but the
catch-all `except Exception` of both handlers converts it into a 500
response wrapping the 404 detail, not the 404 response the claim states. -/
theorem C2_absent_record_not_found_wrapped_500 (store : Store) (cid : String)
    (hv : objectIdIsValid cid = true) (hn : findChat store cid = none) :
    get_chat store cid = (.error ⟨500, "Server error: 404: Chat not found"⟩, 1)
    ∧ ∀ api : MistralPayload → MistralResp,
        summarize_chat store cid api =
          (.error ⟨500, "Summarization error: 404: Chat not found"⟩, none, 1) := by
  constructor
  · simp only [get_chat, get_chat_try, hv, Bool.not_true, Bool.false_eq_true, if_false, hn,
      wrap500, PyError.str]
    rfl
  · intro api
    simp only [summarize_chat, summarize_chat_try, hv, Bool.not_true, Bool.false_eq_true,
      if_false, hn, wrap500, PyError.str]
    rfl

/-- Witness for C2 on the empty store with a well-formed identifier. -/
theorem C2_absent_record_witness :
    objectIdIsValid "0123456789abcdef01234567" = true
    ∧ get_chat [] "0123456789abcdef01234567" =
        (.error ⟨500, "Server error: 404: Chat not found"⟩, 1)
    ∧ summarize_chat [] "0123456789abcdef01234567" (fun _ => ⟨200, some "s"⟩) =
        (.error ⟨500, "Summarization error: 404: Chat not found"⟩, none, 1) :=
  ⟨by decide,
   (C2_absent_record_not_found_wrapped_500 [] _ (by decide) rfl).1,
   (C2_absent_record_not_found_wrapped_500 [] _ (by decide) rfl).2 _⟩

/-- C9: storing a chat and fetching it by the returned identifier gives back
exactly the stored content — the `user_id`, the messages in order and the
creation instant — with the identifier already in string form. Hypotheses:
the generated identifier is well-formed and fresh, both guaranteed by the
store (`ObjectId` generation). -/
theorem C9_store_then_get_roundtrip (store : Store) (chat : Chat) (newId : String) (now : Int)
    (hv : objectIdIsValid newId = true)
    (fresh : ∀ c ∈ store, c._id ≠ newId) :
    get_chat (store_chat store chat newId now).1 (store_chat store chat newId now).2.chat_id =
      (.ok ⟨newId, chat.user_id, chat.messages, now⟩, 1) := by
  have h1 : store.find? (fun c => c._id == newId) = none := by
    apply List.find?_eq_none.mpr
    intro c hc
    simpa using fresh c hc
  have hfind : findChat (store ++ [⟨newId, chat.user_id, chat.messages, now⟩]) newId =
      some ⟨newId, chat.user_id, chat.messages, now⟩ := by
    unfold findChat
    rw [List.find?_append, h1]
    simp
  simp only [store_chat]
  simp only [get_chat, get_chat_try, hv, Bool.not_true, Bool.false_eq_true, if_false, hfind,
    wrap500]

/-- Witness for C9: one concrete chat stored on the empty store. -/
theorem C9_roundtrip_witness :
    objectIdIsValid "0123456789abcdef01234567" = true
    ∧ get_chat
        (store_chat [] ⟨"u1", [⟨"a", "hi", 0⟩]⟩ "0123456789abcdef01234567" 5).1
        (store_chat [] ⟨"u1", [⟨"a", "hi", 0⟩]⟩ "0123456789abcdef01234567" 5).2.chat_id =
      (.ok ⟨"0123456789abcdef01234567", "u1", [⟨"a", "hi", 0⟩], 5⟩, 1) :=
  ⟨by decide,
   C9_store_then_get_roundtrip [] ⟨"u1", [⟨"a", "hi", 0⟩]⟩ "0123456789abcdef01234567" 5
     (by decide) (by simp)⟩

/-- C10: passing the empty string as the `user_id` query parameter of
`delete_chat` behaves exactly like passing no `user_id` at all: the Python
truthiness test `if user_id:` skips the ownership filter for the empty
string, and the not-found message also matches the unowned form. -/
theorem C10_empty_string_owner_same_as_none (store : Store) (cid : String) :
    delete_chat store cid (some "") = delete_chat store cid none := by
  have hq : deleteQueryMatches cid (some "") = deleteQueryMatches cid none := by
    funext c
    simp [deleteQueryMatches, truthy]
  simp [delete_chat, delete_chat_try, truthy, hq]

/-- C6: deleting with a mismatched owner leaves the store unchanged and
reports a not-found condition; deleting with no owner filters on the
identifier alone; and every call deletes at most one record. -/
theorem C6_delete_ownership_scoping (store : Store) (cid : String) :
    (∀ owner : String, objectIdIsValid cid = true → owner ≠ "" →
      (∀ c ∈ store, c._id = cid → c.user_id ≠ owner) →
      delete_chat store cid (some owner) =
        (.error ⟨500,
          "Error deleting chat: 404: Chat not found or not associated with the specified user"⟩,
         store, 1))
    ∧ (objectIdIsValid cid = true →
        (delete_chat store cid none).2.1 = (delete_one store (fun c => c._id == cid)).1)
    ∧ (∀ uid : Option String,
        (delete_chat store cid uid).2.1.length ≤ store.length ∧
        store.length ≤ (delete_chat store cid uid).2.1.length + 1) := by
  refine ⟨fun owner hv howner h => ?_, fun hv => ?_, fun uid => ?_⟩
  · have hm : ∀ c ∈ store, deleteQueryMatches cid (some owner) c = false := by
      intro c hc
      by_cases hid : c._id = cid
      · simp [deleteQueryMatches, truthy, howner, hid, h c hc hid]
      · simp [deleteQueryMatches, hid]
    rw [delete_chat_miss hv hm]
    have ht : truthy (some owner) = true := by simp [truthy, howner]
    simp only [ht, if_true]
    rfl
  · have hq : deleteQueryMatches cid none = fun c => c._id == cid := by
      funext c
      simp [deleteQueryMatches, truthy]
    simp only [delete_chat, delete_chat_try, hv, Bool.not_true, Bool.false_eq_true, if_false, hq]
    split <;> rfl
  · by_cases hv : objectIdIsValid cid = true
    · have hlen := delete_one_length store (deleteQueryMatches cid uid)
      have hcnt := delete_one_count_le_one store (deleteQueryMatches cid uid)
      have h21 : (delete_chat store cid uid).2.1 =
          (delete_one store (deleteQueryMatches cid uid)).1 := by
        simp only [delete_chat, delete_chat_try, hv, Bool.not_true, Bool.false_eq_true, if_false]
        split <;> rfl
      rw [h21]
      omega
    · have hv' : objectIdIsValid cid = false := by simpa using hv
      simp only [delete_chat, delete_chat_try, hv', Bool.not_false, if_true]
      omega

/-- Witness for C6: the stored chat belongs to `"u1"`, deletion is requested
for owner `"u2"`; the record survives. -/
theorem C6_delete_ownership_witness :
    delete_chat [⟨"0123456789abcdef01234567", "u1", [], 0⟩]
        "0123456789abcdef01234567" (some "u2") =
      (.error ⟨500,
        "Error deleting chat: 404: Chat not found or not associated with the specified user"⟩,
       [⟨"0123456789abcdef01234567", "u1", [], 0⟩], 1)
    ∧ (delete_chat [⟨"0123456789abcdef01234567", "u1", [], 0⟩]
          "0123456789abcdef01234567" none).2.1 =
        (delete_one [⟨"0123456789abcdef01234567", "u1", [], 0⟩]
          (fun c => c._id == "0123456789abcdef01234567")).1
    ∧ ((delete_chat [⟨"0123456789abcdef01234567", "u1", [], 0⟩]
          "0123456789abcdef01234567" (some "u1")).2.1.length ≤
        ([⟨"0123456789abcdef01234567", "u1", [], 0⟩] : Store).length ∧
       ([⟨"0123456789abcdef01234567", "u1", [], 0⟩] : Store).length ≤
        (delete_chat [⟨"0123456789abcdef01234567", "u1", [], 0⟩]
          "0123456789abcdef01234567" (some "u1")).2.1.length + 1) :=
  ⟨(C6_delete_ownership_scoping [⟨"0123456789abcdef01234567", "u1", [], 0⟩]
      "0123456789abcdef01234567").1 "u2" (by decide) (by decide) (by decide),
   (C6_delete_ownership_scoping [⟨"0123456789abcdef01234567", "u1", [], 0⟩]
      "0123456789abcdef01234567").2.1 (by decide),
   (C6_delete_ownership_scoping [⟨"0123456789abcdef01234567", "u1", [], 0⟩]
      "0123456789abcdef01234567").2.2 (some "u1")⟩

/-- C7: a deletion matching nothing (`deleted_count = 0`) raises the
`HTTPException(404)` whose message distinguishes the owner-checked form, as
the claim says — but the catch-all `except Exception` converts it into a
500 response wrapping that detail, so the client does not receive the 404
the claim states. -/
theorem C7_deleted_count_zero_not_found_wrapped_500 (store : Store) (cid : String)
    (hv : objectIdIsValid cid = true) :
    ((∀ c ∈ store, c._id ≠ cid) →
      delete_chat store cid none =
        (.error ⟨500, "Error deleting chat: 404: Chat not found"⟩, store, 1))
    ∧ (∀ owner : String, owner ≠ "" →
        (∀ c ∈ store, c._id = cid → c.user_id ≠ owner) →
        delete_chat store cid (some owner) =
          (.error ⟨500,
            "Error deleting chat: 404: Chat not found or not associated with the specified user"⟩,
           store, 1)) := by
  constructor
  · intro h
    have hm : ∀ c ∈ store, deleteQueryMatches cid none c = false := by
      intro c hc
      simp [deleteQueryMatches, h c hc]
    rw [delete_chat_miss hv hm]
    simp only [truthy, Bool.false_eq_true, if_false]
    rfl
  · intro owner howner h
    have hm : ∀ c ∈ store, deleteQueryMatches cid (some owner) c = false := by
      intro c hc
      by_cases hid : c._id = cid
      · simp [deleteQueryMatches, truthy, howner, hid, h c hc hid]
      · simp [deleteQueryMatches, hid]
    rw [delete_chat_miss hv hm]
    have ht : truthy (some owner) = true := by simp [truthy, howner]
    simp only [ht, if_true]
    rfl

/-- Witness for C7: an empty store for the unowned form; a store owned by
`"u1"` for the owner-checked form with owner `"u9"`. -/
theorem C7_deleted_count_zero_witness :
    delete_chat [] "aaaaaaaaaaaaaaaaaaaaaaaa" none =
      (.error ⟨500, "Error deleting chat: 404: Chat not found"⟩, [], 1)
    ∧ delete_chat [⟨"aaaaaaaaaaaaaaaaaaaaaaaa", "u1", [], 0⟩]
        "aaaaaaaaaaaaaaaaaaaaaaaa" (some "u9") =
      (.error ⟨500,
        "Error deleting chat: 404: Chat not found or not associated with the specified user"⟩,
       [⟨"aaaaaaaaaaaaaaaaaaaaaaaa", "u1", [], 0⟩], 1) :=
  ⟨(C7_deleted_count_zero_not_found_wrapped_500 [] "aaaaaaaaaaaaaaaaaaaaaaaa"
      (by decide)).1 (by decide),
   (C7_deleted_count_zero_not_found_wrapped_500 [⟨"aaaaaaaaaaaaaaaaaaaaaaaa", "u1", [], 0⟩]
      "aaaaaaaaaaaaaaaaaaaaaaaa" (by decide)).2 "u9" (by decide) (by decide)⟩

/-- C3: `get_user_chats` rejects a page exactly when
`page > total_pages ∧ total_pages > 0`; with zero chats every page succeeds
with an empty list and `total_pages = 0`. However the `HTTPException(404)`
raised for an out-of-range page is swallowed by the catch-all
`except Exception`, so the client receives a 500 response wrapping the 404
detail, not the 404 the claim states. -/
theorem C3_page_out_of_range_wrapped_500 (store : Store) (uid : String) (page limit : Nat)
    (hl : 1 ≤ limit) :
    ((page > mathCeilDiv (userChats store uid).length limit ∧
      0 < mathCeilDiv (userChats store uid).length limit) →
      get_user_chats store uid page limit =
        (.error ⟨500, "Error retrieving chats: " ++
            (PyError.http ⟨404, "Page " ++ toString page ++ " does not exist. Total pages: " ++
              toString (mathCeilDiv (userChats store uid).length limit)⟩).str⟩, 1))
    ∧ (¬(page > mathCeilDiv (userChats store uid).length limit ∧
          0 < mathCeilDiv (userChats store uid).length limit) →
        (get_user_chats store uid page limit).1 = .ok
          ⟨uid, ((sortByCreatedDesc (userChats store uid)).drop ((page - 1) * limit)).take limit,
           page, limit, (userChats store uid).length,
           mathCeilDiv (userChats store uid).length limit⟩)
    ∧ ((userChats store uid).length = 0 →
        get_user_chats store uid page limit = (.ok ⟨uid, [], page, limit, 0, 0⟩, 2)) := by
  refine ⟨fun h => ?_, fun h => ?_, fun h0 => ?_⟩
  · have hc : (decide (page > mathCeilDiv (userChats store uid).length limit) &&
        decide (mathCeilDiv (userChats store uid).length limit > 0)) = true := by
      simp [h.1, h.2]
    simp only [get_user_chats, get_user_chats_try, hc, if_true, wrap500]
  · have hc : (decide (page > mathCeilDiv (userChats store uid).length limit) &&
        decide (mathCeilDiv (userChats store uid).length limit > 0)) = false := by
      by_cases hA : page > mathCeilDiv (userChats store uid).length limit
      · by_cases hB : 0 < mathCeilDiv (userChats store uid).length limit
        · exact absurd ⟨hA, hB⟩ h
        · simp [hB]
      · simp [hA]
    simp only [get_user_chats, get_user_chats_try, hc, Bool.false_eq_true, if_false, wrap500]
  · have he : userChats store uid = [] := List.length_eq_zero.mp h0
    have htp : mathCeilDiv (0 : ℕ) limit = 0 := mathCeilDiv_zero hl
    simp [get_user_chats, get_user_chats_try, he, htp, wrap500, sortByCreatedDesc,
      List.insertionSort]

/-- Witness for C3: with one chat of `"u1"` and `limit = 10`, requesting
page 2 fails (as a wrapped 500); on the empty store page 3 succeeds with
an empty list and zero pages. -/
theorem C3_page_out_of_range_witness :
    get_user_chats [⟨"0123456789abcdef01234567", "u1", [], 0⟩] "u1" 2 10 =
      (.error ⟨500, "Error retrieving chats: " ++
          (PyError.http ⟨404, "Page " ++ toString 2 ++ " does not exist. Total pages: " ++
            toString (mathCeilDiv
              (userChats [⟨"0123456789abcdef01234567", "u1", [], 0⟩] "u1").length 10)⟩).str⟩, 1)
    ∧ get_user_chats [] "u1" 3 10 = (.ok ⟨"u1", [], 3, 10, 0, 0⟩, 2) :=
  ⟨(C3_page_out_of_range_wrapped_500 [⟨"0123456789abcdef01234567", "u1", [], 0⟩] "u1" 2 10
      (by decide)).1 (by decide),
   (C3_page_out_of_range_wrapped_500 [] "u1" 3 10 (by decide)).2.2 (by decide)⟩

/-- C4: every successful `get_user_chats` response reports
`total_chats` equal to the number of stored chats of the user and
`total_pages = ⌈total_chats / limit⌉` (rational ceiling), which is `0`
when `total_chats = 0`. -/
theorem C4_total_pages_eq_ceil (store : Store) (uid : String) (page limit : Nat)
    (hl : 1 ≤ limit) (r : UserChatsResp)
    (hok : (get_user_chats store uid page limit).1 = .ok r) :
    r.total_chats = (userChats store uid).length
    ∧ r.total_pages = ⌈(r.total_chats : ℚ) / (limit : ℚ)⌉₊
    ∧ (r.total_chats = 0 → r.total_pages = 0) := by
  obtain rfl := get_user_chats_ok_inv hok
  refine ⟨rfl, ?_, fun h0 => ?_⟩
  · exact mathCeilDiv_eq_ceil hl
  · have h0' : (userChats store uid).length = 0 := h0
    show mathCeilDiv (userChats store uid).length limit = 0
    rw [h0']
    exact mathCeilDiv_zero hl

/-- Witness for C4: three chats of `"u"`, `limit = 2`, giving
`total_pages = 2 = ⌈3 / 2⌉`. -/
theorem C4_total_pages_witness :
    (get_user_chats
        [⟨"aaaaaaaaaaaaaaaaaaaaaaaa", "u", [], 1⟩,
         ⟨"bbbbbbbbbbbbbbbbbbbbbbbb", "u", [], 2⟩,
         ⟨"cccccccccccccccccccccccc", "u", [], 3⟩] "u" 1 2).1 =
      .ok ⟨"u",
        [⟨"cccccccccccccccccccccccc", "u", [], 3⟩, ⟨"bbbbbbbbbbbbbbbbbbbbbbbb", "u", [], 2⟩],
        1, 2, 3, 2⟩
    ∧ ((⟨"u",
        [⟨"cccccccccccccccccccccccc", "u", [], 3⟩, ⟨"bbbbbbbbbbbbbbbbbbbbbbbb", "u", [], 2⟩],
        1, 2, 3, 2⟩ : UserChatsResp).total_chats =
        (userChats
          [⟨"aaaaaaaaaaaaaaaaaaaaaaaa", "u", [], 1⟩,
           ⟨"bbbbbbbbbbbbbbbbbbbbbbbb", "u", [], 2⟩,
           ⟨"cccccccccccccccccccccccc", "u", [], 3⟩] "u").length
      ∧ (⟨"u",
          [⟨"cccccccccccccccccccccccc", "u", [], 3⟩, ⟨"bbbbbbbbbbbbbbbbbbbbbbbb", "u", [], 2⟩],
          1, 2, 3, 2⟩ : UserChatsResp).total_pages =
          ⌈(((⟨"u",
              [⟨"cccccccccccccccccccccccc", "u", [], 3⟩,
               ⟨"bbbbbbbbbbbbbbbbbbbbbbbb", "u", [], 2⟩],
              1, 2, 3, 2⟩ : UserChatsResp).total_chats : ℚ)) / (((2 : ℕ) : ℚ))⌉₊
      ∧ ((⟨"u",
          [⟨"cccccccccccccccccccccccc", "u", [], 3⟩, ⟨"bbbbbbbbbbbbbbbbbbbbbbbb", "u", [], 2⟩],
          1, 2, 3, 2⟩ : UserChatsResp).total_chats = 0 →
         (⟨"u",
          [⟨"cccccccccccccccccccccccc", "u", [], 3⟩, ⟨"bbbbbbbbbbbbbbbbbbbbbbbb", "u", [], 2⟩],
          1, 2, 3, 2⟩ : UserChatsResp).total_pages = 0)) :=
  ⟨by decide,
   C4_total_pages_eq_ceil
     [⟨"aaaaaaaaaaaaaaaaaaaaaaaa", "u", [], 1⟩,
      ⟨"bbbbbbbbbbbbbbbbbbbbbbbb", "u", [], 2⟩,
      ⟨"cccccccccccccccccccccccc", "u", [], 3⟩] "u" 1 2 (by decide) _ (by decide)⟩

/-- C5: every successful `get_user_chats` response returns exactly the
window `[(page-1)*limit, (page-1)*limit + limit)` of the chats of the
user ordered by `created_at` descending: the returned list is that slice of
a `createdDesc`-sorted permutation of the stored chats of the user. -/
theorem C5_page_window_sorted_desc (store : Store) (uid : String) (page limit : Nat)
    (hp : 1 ≤ page) (hl1 : 1 ≤ limit) (hl2 : limit ≤ 100) (r : UserChatsResp)
    (hok : (get_user_chats store uid page limit).1 = .ok r) :
    r.chats = ((sortByCreatedDesc (userChats store uid)).drop ((page - 1) * limit)).take limit
    ∧ (sortByCreatedDesc (userChats store uid)).Perm (userChats store uid)
    ∧ List.Sorted createdDesc (sortByCreatedDesc (userChats store uid)) := by
  obtain rfl := get_user_chats_ok_inv hok
  exact ⟨rfl, sortByCreatedDesc_perm _, sortByCreatedDesc_sorted _⟩

/-- Witness for C5: two chats of `"u"` stored oldest first; page 1 with
`limit = 10` returns both, most recent first. -/
theorem C5_page_window_witness :
    (get_user_chats
        [⟨"aaaaaaaaaaaaaaaaaaaaaaaa", "u", [], 1⟩, ⟨"bbbbbbbbbbbbbbbbbbbbbbbb", "u", [], 5⟩]
        "u" 1 10).1 =
      .ok ⟨"u",
        [⟨"bbbbbbbbbbbbbbbbbbbbbbbb", "u", [], 5⟩, ⟨"aaaaaaaaaaaaaaaaaaaaaaaa", "u", [], 1⟩],
        1, 10, 2, 1⟩
    ∧ ((⟨"u",
        [⟨"bbbbbbbbbbbbbbbbbbbbbbbb", "u", [], 5⟩, ⟨"aaaaaaaaaaaaaaaaaaaaaaaa", "u", [], 1⟩],
        1, 10, 2, 1⟩ : UserChatsResp).chats =
        ((sortByCreatedDesc (userChats
          [⟨"aaaaaaaaaaaaaaaaaaaaaaaa", "u", [], 1⟩, ⟨"bbbbbbbbbbbbbbbbbbbbbbbb", "u", [], 5⟩]
          "u")).drop ((1 - 1) * 10)).take 10
      ∧ (sortByCreatedDesc (userChats
          [⟨"aaaaaaaaaaaaaaaaaaaaaaaa", "u", [], 1⟩, ⟨"bbbbbbbbbbbbbbbbbbbbbbbb", "u", [], 5⟩]
          "u")).Perm (userChats
          [⟨"aaaaaaaaaaaaaaaaaaaaaaaa", "u", [], 1⟩, ⟨"bbbbbbbbbbbbbbbbbbbbbbbb", "u", [], 5⟩]
          "u")
      ∧ List.Sorted createdDesc (sortByCreatedDesc (userChats
          [⟨"aaaaaaaaaaaaaaaaaaaaaaaa", "u", [], 1⟩, ⟨"bbbbbbbbbbbbbbbbbbbbbbbb", "u", [], 5⟩]
          "u"))) :=
  ⟨by decide,
   C5_page_window_sorted_desc
     [⟨"aaaaaaaaaaaaaaaaaaaaaaaa", "u", [], 1⟩, ⟨"bbbbbbbbbbbbbbbbbbbbbbbb", "u", [], 5⟩]
     "u" 1 10 (by decide) (by decide) (by decide) _ (by decide)⟩

/-- C8: when `summarize_chat` finds the chat, the payload sent to the
external API is built from the message `text` fields alone: its user prompt
is the newline-separated concatenation of the texts in stored order, and
the payload is invariant under any change of senders or timestamps that
keeps the texts. -/
theorem C8_prompt_contains_only_texts (store : Store) (cid : String) (chat : ChatRec)
    (api : MistralPayload → MistralResp)
    (hv : objectIdIsValid cid = true)
    (hf : findChat store cid = some chat) :
    (summarize_chat store cid api).2.1 = some (mistralPayload (chatText chat.messages))
    ∧ (mistralPayload (chatText chat.messages)).messages =
        [⟨"system", "Summarize conversations concisely."⟩,
         ⟨"user", "Summarize this conversation:\n\n" ++
            String.intercalate "\n" (chat.messages.map Message.text)⟩]
    ∧ ∀ msgs : List Message, msgs.map Message.text = chat.messages.map Message.text →
        mistralPayload (chatText msgs) = mistralPayload (chatText chat.messages) := by
  refine ⟨?_, rfl, fun msgs hm => ?_⟩
  · simp only [summarize_chat, summarize_chat_try, hv, Bool.not_true, Bool.false_eq_true,
      if_false, hf]
    split
    · rfl
    · split <;> rfl
  · simp only [chatText, hm]

/-- Witness for C8: a two-message chat; replacing senders and timestamps
while keeping the texts leaves the payload unchanged. -/
theorem C8_prompt_witness :
    findChat [⟨"0123456789abcdef01234567", "u", [⟨"alice", "hello", 3⟩, ⟨"bob", "bye", 4⟩], 0⟩]
        "0123456789abcdef01234567" =
      some ⟨"0123456789abcdef01234567", "u", [⟨"alice", "hello", 3⟩, ⟨"bob", "bye", 4⟩], 0⟩
    ∧ (summarize_chat
        [⟨"0123456789abcdef01234567", "u", [⟨"alice", "hello", 3⟩, ⟨"bob", "bye", 4⟩], 0⟩]
        "0123456789abcdef01234567" (fun _ => ⟨200, some "s"⟩)).2.1 =
      some (mistralPayload (chatText [⟨"alice", "hello", 3⟩, ⟨"bob", "bye", 4⟩]))
    ∧ mistralPayload (chatText [⟨"x", "hello", 9⟩, ⟨"y", "bye", 8⟩]) =
      mistralPayload (chatText [⟨"alice", "hello", 3⟩, ⟨"bob", "bye", 4⟩]) :=
  ⟨by decide,
   (C8_prompt_contains_only_texts
     [⟨"0123456789abcdef01234567", "u", [⟨"alice", "hello", 3⟩, ⟨"bob", "bye", 4⟩], 0⟩]
     "0123456789abcdef01234567"
     ⟨"0123456789abcdef01234567", "u", [⟨"alice", "hello", 3⟩, ⟨"bob", "bye", 4⟩], 0⟩
     (fun _ => ⟨200, some "s"⟩) (by decide) (by decide)).1,
   (C8_prompt_contains_only_texts
     [⟨"0123456789abcdef01234567", "u", [⟨"alice", "hello", 3⟩, ⟨"bob", "bye", 4⟩], 0⟩]
     "0123456789abcdef01234567"
     ⟨"0123456789abcdef01234567", "u", [⟨"alice", "hello", 3⟩, ⟨"bob", "bye", 4⟩], 0⟩
     (fun _ => ⟨200, some "s"⟩) (by decide) (by decide)).2.2
     [⟨"x", "hello", 9⟩, ⟨"y", "bye", 8⟩] (by decide)⟩

end ChatApi
